import Mathlib

/-!
Shallow embedding of the NeuroKeys BCI acquisition sketch
(`src/frontend/src/public/sketch1.cpp`) and verification of its
specification claims.

The sketch samples three analog channels from a periodic hardware-timer
callback, frames them into a 10-byte packet, runs a threshold/debounce
mode detector, and serves a small text command protocol from the main
loop.  Machine integers are modelled as `Nat` with explicit reductions
modulo `2^8`, `2^16`, `2^32` where the C types (`uint8_t`, `uint16_t`,
`uint32_t`) truncate.  The packet buffer (`uint8_t packetBuffer[10]`)
is modelled as a function `Fin PACKET_LEN → Nat`.
-/

set_option maxHeartbeats 1000000

namespace NeuroKeys

/-- `#define NUM_CHANNELS 3` — EMG + EEG + EOG. -/
abbrev NUM_CHANNELS : Nat := 3

/-- `#define HEADER_LEN 3` — two sync bytes plus one sequence byte. -/
abbrev HEADER_LEN : Nat := 3

/-- `#define PACKET_LEN (NUM_CHANNELS*2 + HEADER_LEN + 1)` = 10 bytes. -/
abbrev PACKET_LEN : Nat := NUM_CHANNELS * 2 + HEADER_LEN + 1

/-- `#define SYNC_BYTE_1 0xAB`. -/
abbrev SYNC_BYTE_1 : Nat := 0xAB

/-- `#define SYNC_BYTE_2 0xCD`. -/
abbrev SYNC_BYTE_2 : Nat := 0xCD

/-- `#define END_BYTE 0xEF`. -/
abbrev END_BYTE : Nat := 0xEF

/-- `2^32`, the modulus of the C type `uint32_t` (the type of `millis()`). -/
abbrev U32 : Nat := 4294967296

/-- Arduino macro `highByte(w) = (uint8_t)((w) >> 8)`. -/
def highByte (v : Nat) : Nat := (v >>> 8) % 256

/-- Arduino macro `lowByte(w) = (uint8_t)((w) & 0xff)`. -/
def lowByte (v : Nat) : Nat := (v &&& 0xFF) % 256

/-- Unsigned 32-bit subtraction `a - b`, as performed on `uint32_t`
values in `millis() - lastSwitch`. -/
def u32sub (a b : Nat) : Nat := (a % U32 + (U32 - b % U32)) % U32

/-- The global mutable state of the sketch:
`packetBuffer` (10-byte array), `bufferReady` (pending flag),
`timerStatus` (acquisition enabled flag), `dashboardMode`
(`uint8_t`: 0 = EMG, 1 = EEG, 2 = EOG) and the static local
`lastSwitch` of `detectGesture` (a `uint32_t` `millis()` timestamp). -/
structure SysState where
  packetBuffer : Fin PACKET_LEN → Nat
  bufferReady : Bool
  timerStatus : Bool
  dashboardMode : Nat
  lastSwitch : Nat

/-- Serial output events: `Serial.write(buf, len)` emits a binary
`bytes` event, `Serial.println(s)` emits a text `line` event. -/
inductive OutEvent where
  | bytes (bs : List Nat)
  | line (s : String)
deriving DecidableEq, Repr

/-- `detectGesture(emg, eeg, eog)`: debounced threshold mode selector.
`now` is the value `millis()` returns during this call; the function
yields the new `(dashboardMode, lastSwitch)` pair.

```c
if (millis() - lastSwitch < 500) return;
if (emg > 12000) { dashboardMode = 0; lastSwitch = millis(); }
else if (eeg > 11000) { dashboardMode = 1; lastSwitch = millis(); }
else if (eog > 10000) { dashboardMode = 2; lastSwitch = millis(); }
``` -/
def detectGesture (emg eeg eog now mode lastSwitch : Nat) : Nat × Nat :=
  if u32sub now lastSwitch < 500 then (mode, lastSwitch)
  else if emg > 12000 then (0, now)
  else if eeg > 11000 then (1, now)
  else if eog > 10000 then (2, now)
  else (mode, lastSwitch)

/-- `updateDashboard()`: prints the line naming the current mode. -/
def updateDashboard (mode : Nat) : List OutEvent :=
  if mode = 0 then [OutEvent.line "[MODE] EMG Graph"]
  else if mode = 1 then [OutEvent.line "[MODE] EEG Graph"]
  else if mode = 2 then [OutEvent.line "[MODE] EOG Blink"]
  else []

/-- One iteration of the sampling loop body in `timerCallback`:
```c
adcValue = analogRead(currentChannel);
packetBuffer[(currentChannel*2) + HEADER_LEN]     = highByte(adcValue);
packetBuffer[(currentChannel*2) + HEADER_LEN + 1] = lowByte(adcValue);
```
`adcValue` is a `uint16_t`, hence the `% 65536` on the read value. -/
def writeSample (buf : Fin PACKET_LEN → Nat) (i : Fin NUM_CHANNELS)
    (v : Nat) : Fin PACKET_LEN → Nat :=
  Function.update
    (Function.update buf
      ⟨i.val * 2 + HEADER_LEN, by
        have h : i.val < 3 := i.isLt; show i.val * 2 + 3 < 10; omega⟩
      (highByte v))
    ⟨i.val * 2 + HEADER_LEN + 1, by
      have h : i.val < 3 := i.isLt; show i.val * 2 + 3 + 1 < 10; omega⟩
    (lowByte v)

/-- The `for (currentChannel = 0; currentChannel < NUM_CHANNELS; ...)`
loop of `timerCallback`, with `analog i` the value `analogRead(i)`
returns on this tick. -/
def sampleChannels (analog : Fin NUM_CHANNELS → Nat)
    (buf : Fin PACKET_LEN → Nat) : Fin PACKET_LEN → Nat :=
  (List.finRange NUM_CHANNELS).foldl
    (fun b i => writeSample b i (analog i % 65536)) buf

/-- `timerCallback`: samples all channels into the buffer, reassembles
the three `uint16_t` values from the payload bytes
(`(packetBuffer[3] << 8) | packetBuffer[4]`, …), runs `detectGesture`,
increments the `uint8_t` sequence byte `packetBuffer[2]`, and sets
`bufferReady = true`. -/
def timerCallback (analog : Fin NUM_CHANNELS → Nat) (now : Nat)
    (s : SysState) : SysState :=
  let buf := sampleChannels analog s.packetBuffer
  let emg := ((buf 3 <<< 8) ||| buf 4) % 65536
  let eeg := ((buf 5 <<< 8) ||| buf 6) % 65536
  let eog := ((buf 7 <<< 8) ||| buf 8) % 65536
  let g := detectGesture emg eeg eog now s.dashboardMode s.lastSwitch
  { packetBuffer := Function.update buf 2 ((buf 2 + 1) % 256)
    bufferReady := true
    timerStatus := s.timerStatus
    dashboardMode := g.1
    lastSwitch := g.2 }

/-- `timerBegin(rate)`: asks `FspTimer::get_available_timer` for a
channel; returns `false` (acquisition not started) when the answer is
`-1`, otherwise configures the periodic timer and returns `true`.
`availableChannel` models the value `get_available_timer` returns. -/
def timerBegin (availableChannel : Int) : Bool :=
  if availableChannel = -1 then false else true

/-- `sendPacket()`: `Serial.write(packetBuffer, PACKET_LEN)` — one
write call carrying the whole buffer. -/
def sendPacket (s : SysState) : OutEvent :=
  OutEvent.bytes (List.ofFn s.packetBuffer)

/-- `isspace(c)` as used by Arduino `String::trim`: space, `\t`, `\n`,
vertical tab, form feed, `\r`. -/
def isSpace (c : Char) : Bool :=
  c == ' ' || c == '\t' || c == '\n' || c == '\x0b' || c == '\x0c' || c == '\r'

/-- `toupper(c)` on ASCII, as applied per character by Arduino
`String::toUpperCase`. -/
def toUpperChar (c : Char) : Char :=
  if 'a' ≤ c ∧ c ≤ 'z' then Char.ofNat (c.toNat - 32) else c

/-- Arduino `String::trim()`: strips leading and trailing whitespace.
Arduino strings are modelled as `List Char`. -/
def trim (s : List Char) : List Char :=
  ((s.dropWhile isSpace).reverse.dropWhile isSpace).reverse

/-- Arduino `String::toUpperCase()`. -/
def toUpperStr (s : List Char) : List Char := s.map toUpperChar

/-- `processCommand(c)`: `c.trim(); c.toUpperCase();` then the
START/STOP/MODE/STATUS dispatch; anything else falls through with no
output and no state change. -/
def processCommand (c : List Char) (s : SysState) : SysState × List OutEvent :=
  let c := toUpperStr (trim c)
  if c = "START".toList then
    ({ s with timerStatus := true }, [OutEvent.line "ACQ STARTED"])
  else if c = "STOP".toList then
    ({ s with timerStatus := false }, [OutEvent.line "ACQ STOPPED"])
  else if c = "MODE".toList then (s, updateDashboard s.dashboardMode)
  else if c = "STATUS".toList then
    (s, [OutEvent.line (if s.timerStatus then "RUNNING" else "STOPPED")])
  else (s, [])

/-- The packet buffer as `setup()` leaves it: the global array is
zero-initialised, then `packetBuffer[0] = SYNC_BYTE_1`,
`packetBuffer[1] = SYNC_BYTE_2`, `packetBuffer[2] = 0`,
`packetBuffer[PACKET_LEN-1] = END_BYTE`. -/
def setupBuffer : Fin PACKET_LEN → Nat :=
  Function.update (Function.update (Function.update (Function.update
    (fun _ => 0) 0 SYNC_BYTE_1) 1 SYNC_BYTE_2) 2 0)
    ⟨PACKET_LEN - 1, by decide⟩ END_BYTE

/-- Result of `setup()`: the initial state, the text the sketch printed
during start-up, and whether `timerBegin` managed to start the periodic
timer. -/
structure SetupResult where
  state : SysState
  out : List OutEvent
  timerStarted : Bool

/-- `setup()`: initialises the packet buffer, calls
`timerBegin(SAMP_RATE)` — discarding its return value — and prints the
startup banner unconditionally.  `availableChannel` models the timer
channel `FspTimer::get_available_timer` reports (`-1` = none free). -/
def setup (availableChannel : Int) : SetupResult :=
  let started := timerBegin availableChannel
  { state :=
      { packetBuffer := setupBuffer
        bufferReady := false
        timerStatus := false
        dashboardMode := 0
        lastSwitch := 0 }
    out :=
      [OutEvent.line "\n=== BIOSIGNAL DASHBOARD ==="
      , OutEvent.line "[CH0] EMG  (Muscle)"
      , OutEvent.line "[CH1] EEG  (Brain)"
      , OutEvent.line "[CH2] EOG  (Eye)"
      , OutEvent.line "==========================="]
    timerStarted := started }

/-- The transmit half of `loop()`:
```c
if (timerStatus && bufferReady) { sendPacket(); bufferReady = false; }
``` -/
def transmitStep (s : SysState) : SysState × List OutEvent :=
  if s.timerStatus && s.bufferReady then
    ({ s with bufferReady := false }, [sendPacket s])
  else (s, [])

/-- One full `loop()` iteration: the transmit step, then — when a
complete input line is available — `processCommand` on it. -/
def loopIter (s : SysState) (input : Option (List Char)) :
    SysState × List OutEvent :=
  let t := transmitStep s
  match input with
  | some line =>
      let p := processCommand line t.1
      (p.1, t.2 ++ p.2)
  | none => t

/-- `n` consecutive timer ticks: tick `k` reads `analog k` from the ADC
at time `times k`. -/
def runTicks (analog : Nat → Fin NUM_CHANNELS → Nat) (times : Nat → Nat) :
    Nat → SysState → SysState
  | 0, s => s
  | n + 1, s => timerCallback (analog n) (times n) (runTicks analog times n s)

/-! ### Helper lemmas about the embedding -/

/-- Recombining the two bytes produced by `highByte`/`lowByte` recovers
any value below `2^16`: `(highByte v << 8) | lowByte v = v`. -/
theorem byte_recombine (v : Nat) (h : v < 65536) :
    (highByte v <<< 8) ||| lowByte v = v := by
  unfold highByte lowByte
  rw [Nat.shiftRight_eq_div_pow, Nat.shiftLeft_eq]
  have h1 : v / 2 ^ 8 < 256 := by omega
  have h2 : v &&& 0xFF = v % 256 := by
    have h3 := Nat.and_pow_two_sub_one_eq_mod v 8
    norm_num at h3
    exact h3
  rw [Nat.mod_eq_of_lt h1, h2, Nat.mul_comm, ← Nat.mul_add_lt_is_or]
  · omega
  · omega

theorem highByte_eq (v : Nat) (h : v < 65536) : highByte v = v / 256 := by
  unfold highByte
  rw [Nat.shiftRight_eq_div_pow]
  have h1 : v / 2 ^ 8 < 256 := by omega
  rw [Nat.mod_eq_of_lt h1]
  norm_num

theorem lowByte_eq (v : Nat) : lowByte v = v % 256 := by
  unfold lowByte
  have h3 := Nat.and_pow_two_sub_one_eq_mod v 8
  norm_num at h3
  rw [h3]
  omega

/-- The channel-sampling loop unrolled to its three iterations. -/
theorem sampleChannels_eq (analog : Fin NUM_CHANNELS → Nat)
    (buf : Fin PACKET_LEN → Nat) :
    sampleChannels analog buf =
      writeSample (writeSample (writeSample buf 0 (analog 0 % 65536))
        1 (analog 1 % 65536)) 2 (analog 2 % 65536) := rfl

theorem sampleChannels_apply_zero (analog : Fin NUM_CHANNELS → Nat)
    (buf : Fin PACKET_LEN → Nat) : sampleChannels analog buf 0 = buf 0 := by
  rw [sampleChannels_eq]
  unfold writeSample
  rw [Function.update_noteq (by decide), Function.update_noteq (by decide),
    Function.update_noteq (by decide), Function.update_noteq (by decide),
    Function.update_noteq (by decide), Function.update_noteq (by decide)]

theorem sampleChannels_apply_one (analog : Fin NUM_CHANNELS → Nat)
    (buf : Fin PACKET_LEN → Nat) : sampleChannels analog buf 1 = buf 1 := by
  rw [sampleChannels_eq]
  unfold writeSample
  rw [Function.update_noteq (by decide), Function.update_noteq (by decide),
    Function.update_noteq (by decide), Function.update_noteq (by decide),
    Function.update_noteq (by decide), Function.update_noteq (by decide)]

theorem sampleChannels_apply_two (analog : Fin NUM_CHANNELS → Nat)
    (buf : Fin PACKET_LEN → Nat) : sampleChannels analog buf 2 = buf 2 := by
  rw [sampleChannels_eq]
  unfold writeSample
  rw [Function.update_noteq (by decide), Function.update_noteq (by decide),
    Function.update_noteq (by decide), Function.update_noteq (by decide),
    Function.update_noteq (by decide), Function.update_noteq (by decide)]

theorem sampleChannels_apply_nine (analog : Fin NUM_CHANNELS → Nat)
    (buf : Fin PACKET_LEN → Nat) : sampleChannels analog buf 9 = buf 9 := by
  rw [sampleChannels_eq]
  unfold writeSample
  rw [Function.update_noteq (by decide), Function.update_noteq (by decide),
    Function.update_noteq (by decide), Function.update_noteq (by decide),
    Function.update_noteq (by decide), Function.update_noteq (by decide)]

theorem sampleChannels_apply_three (analog : Fin NUM_CHANNELS → Nat)
    (buf : Fin PACKET_LEN → Nat) :
    sampleChannels analog buf 3 = highByte (analog 0 % 65536) := by
  rw [sampleChannels_eq]
  unfold writeSample
  rw [Function.update_noteq (by decide), Function.update_noteq (by decide),
    Function.update_noteq (by decide), Function.update_noteq (by decide),
    Function.update_noteq (by decide)]
  exact Function.update_same _ _ _

theorem sampleChannels_apply_four (analog : Fin NUM_CHANNELS → Nat)
    (buf : Fin PACKET_LEN → Nat) :
    sampleChannels analog buf 4 = lowByte (analog 0 % 65536) := by
  rw [sampleChannels_eq]
  unfold writeSample
  rw [Function.update_noteq (by decide), Function.update_noteq (by decide),
    Function.update_noteq (by decide), Function.update_noteq (by decide)]
  exact Function.update_same _ _ _

theorem sampleChannels_apply_five (analog : Fin NUM_CHANNELS → Nat)
    (buf : Fin PACKET_LEN → Nat) :
    sampleChannels analog buf 5 = highByte (analog 1 % 65536) := by
  rw [sampleChannels_eq]
  unfold writeSample
  rw [Function.update_noteq (by decide), Function.update_noteq (by decide),
    Function.update_noteq (by decide)]
  exact Function.update_same _ _ _

theorem sampleChannels_apply_six (analog : Fin NUM_CHANNELS → Nat)
    (buf : Fin PACKET_LEN → Nat) :
    sampleChannels analog buf 6 = lowByte (analog 1 % 65536) := by
  rw [sampleChannels_eq]
  unfold writeSample
  rw [Function.update_noteq (by decide), Function.update_noteq (by decide)]
  exact Function.update_same _ _ _

theorem sampleChannels_apply_seven (analog : Fin NUM_CHANNELS → Nat)
    (buf : Fin PACKET_LEN → Nat) :
    sampleChannels analog buf 7 = highByte (analog 2 % 65536) := by
  rw [sampleChannels_eq]
  unfold writeSample
  rw [Function.update_noteq (by decide)]
  exact Function.update_same _ _ _

theorem sampleChannels_apply_eight (analog : Fin NUM_CHANNELS → Nat)
    (buf : Fin PACKET_LEN → Nat) :
    sampleChannels analog buf 8 = lowByte (analog 2 % 65536) := by
  rw [sampleChannels_eq]
  unfold writeSample
  exact Function.update_same _ _ _



theorem recombine_mod (a : Nat) :
    ((highByte (a % 65536) <<< 8) ||| lowByte (a % 65536)) % 65536 = a % 65536 := by
  rw [byte_recombine _ (Nat.mod_lt _ (by norm_num))]
  omega

theorem timerCallback_packetBuffer (analog : Fin NUM_CHANNELS → Nat) (now : Nat) (s : SysState) :
    (timerCallback analog now s).packetBuffer =
      Function.update (sampleChannels analog s.packetBuffer) 2
        ((s.packetBuffer 2 + 1) % 256) := by
  simp only [timerCallback]
  rw [sampleChannels_apply_two]

theorem timerCallback_mode (analog : Fin NUM_CHANNELS → Nat) (now : Nat) (s : SysState) :
    (timerCallback analog now s).dashboardMode =
      (detectGesture (analog 0 % 65536) (analog 1 % 65536) (analog 2 % 65536)
        now s.dashboardMode s.lastSwitch).1 := by
  simp only [timerCallback]
  rw [sampleChannels_apply_three, sampleChannels_apply_four,
    sampleChannels_apply_five, sampleChannels_apply_six,
    sampleChannels_apply_seven, sampleChannels_apply_eight,
    recombine_mod, recombine_mod, recombine_mod]

theorem timerCallback_lastSwitch (analog : Fin NUM_CHANNELS → Nat) (now : Nat) (s : SysState) :
    (timerCallback analog now s).lastSwitch =
      (detectGesture (analog 0 % 65536) (analog 1 % 65536) (analog 2 % 65536)
        now s.dashboardMode s.lastSwitch).2 := by
  simp only [timerCallback]
  rw [sampleChannels_apply_three, sampleChannels_apply_four,
    sampleChannels_apply_five, sampleChannels_apply_six,
    sampleChannels_apply_seven, sampleChannels_apply_eight,
    recombine_mod, recombine_mod, recombine_mod]

theorem timerCallback_bufferReady (analog : Fin NUM_CHANNELS → Nat) (now : Nat) (s : SysState) :
    (timerCallback analog now s).bufferReady = true := rfl

theorem timerCallback_timerStatus (analog : Fin NUM_CHANNELS → Nat) (now : Nat) (s : SysState) :
    (timerCallback analog now s).timerStatus = s.timerStatus := rfl

theorem timerCallback_seq (analog : Fin NUM_CHANNELS → Nat) (now : Nat) (s : SysState) :
    (timerCallback analog now s).packetBuffer 2 = (s.packetBuffer 2 + 1) % 256 := by
  rw [timerCallback_packetBuffer]
  exact Function.update_same _ _ _



theorem timerCallback_frame (analog : Fin NUM_CHANNELS → Nat) (now : Nat) (s : SysState) :
    (timerCallback analog now s).packetBuffer 0 = s.packetBuffer 0 ∧
    (timerCallback analog now s).packetBuffer 1 = s.packetBuffer 1 ∧
    (timerCallback analog now s).packetBuffer 9 = s.packetBuffer 9 := by
  rw [timerCallback_packetBuffer]
  refine ⟨?_, ?_, ?_⟩
  · rw [Function.update_noteq (by decide), sampleChannels_apply_zero]
  · rw [Function.update_noteq (by decide), sampleChannels_apply_one]
  · rw [Function.update_noteq (by decide), sampleChannels_apply_nine]

theorem runTicks_frame (analog : Nat → Fin NUM_CHANNELS → Nat) (times : Nat → Nat)
    (n : Nat) (s : SysState) :
    (runTicks analog times n s).packetBuffer 0 = s.packetBuffer 0 ∧
    (runTicks analog times n s).packetBuffer 1 = s.packetBuffer 1 ∧
    (runTicks analog times n s).packetBuffer 9 = s.packetBuffer 9 := by
  induction n with
  | zero => exact ⟨rfl, rfl, rfl⟩
  | succ n ih =>
    have h := timerCallback_frame (analog n) (times n) (runTicks analog times n s)
    exact ⟨h.1.trans ih.1, h.2.1.trans ih.2.1, h.2.2.trans ih.2.2⟩

theorem runTicks_seq (analog : Nat → Fin NUM_CHANNELS → Nat) (times : Nat → Nat)
    (n : Nat) (s : SysState) (h : s.packetBuffer 2 < 256) :
    (runTicks analog times n s).packetBuffer 2 = (s.packetBuffer 2 + n) % 256 := by
  induction n with
  | zero => simp [runTicks, Nat.mod_eq_of_lt h]
  | succ n ih =>
    show (timerCallback _ _ _).packetBuffer 2 = _
    rw [timerCallback_seq, ih]
    omega



/-- Claim C2: for every sequence of channel sample values and every number
of sampling ticks after initialization, the framed packet has byte 0 =
`0xAB`, byte 1 = `0xCD` and byte 9 = `0xEF`, with total length
`2 * channel_count + 4 = 10` bytes; the sync and trailer bytes are never
modified after initialization regardless of sample content. -/
theorem C2_frame_invariant (ch : Int) (analog : Nat → Fin NUM_CHANNELS → Nat)
    (times : Nat → Nat) (n : Nat) :
    ((runTicks analog times n (setup ch).state).packetBuffer 0 = 0xAB) ∧
    ((runTicks analog times n (setup ch).state).packetBuffer 1 = 0xCD) ∧
    ((runTicks analog times n (setup ch).state).packetBuffer 9 = 0xEF) ∧
    PACKET_LEN = 2 * NUM_CHANNELS + 4 ∧
    (List.ofFn (runTicks analog times n (setup ch).state).packetBuffer).length
      = PACKET_LEN := by
  have h := runTicks_frame analog times n (setup ch).state
  refine ⟨?_, ?_, ?_, rfl, List.length_ofFn _⟩
  · rw [h.1]; rfl
  · rw [h.2.1]; rfl
  · rw [h.2.2]; rfl

/-- Claim C3: for every sampling tick and every prior sequence value, the
sequence byte (packet offset 2) after the tick equals the prior value
plus one modulo 256 — exactly one increment per framed packet,
independent of the sample values — and after exactly 256 ticks the
sequence byte returns to its original value. -/
theorem C3_sequence (analog1 : Fin NUM_CHANNELS → Nat) (now : Nat)
    (analog : Nat → Fin NUM_CHANNELS → Nat) (times : Nat → Nat) (st : SysState) :
    ((timerCallback analog1 now st).packetBuffer 2 = (st.packetBuffer 2 + 1) % 256) ∧
    (st.packetBuffer 2 < 256 →
      (runTicks analog times 256 st).packetBuffer 2 = st.packetBuffer 2) := by
  refine ⟨timerCallback_seq _ _ _, fun h => ?_⟩
  rw [runTicks_seq _ _ _ _ h]
  omega

theorem C3_sequence_witness :
    (setup 0).state.packetBuffer 2 < 256 ∧
    (runTicks (fun _ _ => 0) (fun _ => 0) 256 (setup 0).state).packetBuffer 2 =
      (setup 0).state.packetBuffer 2 :=
  ⟨by decide,
   (C3_sequence (fun _ => 0) 0 (fun _ _ => 0) (fun _ => 0) (setup 0).state).2
     (by decide)⟩

/-- Claim C4: with the debounce window elapsed, `detectGesture` evaluates
its conditions in fixed priority order: the mode becomes EMG (0) if the
muscle sample exceeds 12000; else EEG (1) if the brain sample exceeds
11000; else EOG (2) if the eye sample exceeds 10000; else the mode (and
`lastSwitch`) is unchanged.  In particular, when all three thresholds
are exceeded simultaneously the resulting mode is EMG, never EEG or
EOG. -/
theorem C4_priority (emg eeg eog now mode last : Nat)
    (hdb : ¬ u32sub now last < 500) :
    (emg > 12000 → detectGesture emg eeg eog now mode last = (0, now)) ∧
    (emg ≤ 12000 → eeg > 11000 →
      detectGesture emg eeg eog now mode last = (1, now)) ∧
    (emg ≤ 12000 → eeg ≤ 11000 → eog > 10000 →
      detectGesture emg eeg eog now mode last = (2, now)) ∧
    (emg ≤ 12000 → eeg ≤ 11000 → eog ≤ 10000 →
      detectGesture emg eeg eog now mode last = (mode, last)) ∧
    (emg > 12000 → eeg > 11000 → eog > 10000 →
      (detectGesture emg eeg eog now mode last).1 = 0) := by
  unfold detectGesture
  rw [if_neg hdb]
  refine ⟨fun h1 => by rw [if_pos h1],
    fun h1 h2 => by rw [if_neg (by omega), if_pos h2],
    fun h1 h2 h3 => by rw [if_neg (by omega), if_neg (by omega), if_pos h3],
    fun h1 h2 h3 => by rw [if_neg (by omega), if_neg (by omega), if_neg (by omega)],
    fun h1 h2 h3 => by rw [if_pos h1]⟩

theorem C4_priority_witness :
    ¬ u32sub 600 0 < 500 ∧
    detectGesture 13000 12000 11000 600 1 0 = (0, 600) ∧
    detectGesture 12000 12000 9000 600 0 0 = (1, 600) := by
  refine ⟨by decide, ?_, ?_⟩
  · exact (C4_priority 13000 12000 11000 600 1 0 (by decide)).1 (by decide)
  · exact (C4_priority 12000 12000 9000 600 0 0 (by decide)).2.1 (by decide) (by decide)

/-- Claim C5: mode transitions respect the 500 ms debounce under
unsigned 32-bit (wraparound-tolerant) subtraction: when less than
500 ms has elapsed since `lastSwitch`, `detectGesture` changes neither
the mode nor `lastSwitch`; on any transition `lastSwitch` is reset to
the current time; and `u32sub` recovers the true elapsed time `d` even
when the 32-bit timer value wrapped between `lastSwitch` and now. -/
theorem C5_debounce (emg eeg eog now mode last : Nat) :
    (u32sub now last < 500 →
      detectGesture emg eeg eog now mode last = (mode, last)) ∧
    (detectGesture emg eeg eog now mode last ≠ (mode, last) →
      (detectGesture emg eeg eog now mode last).2 = now) ∧
    (∀ t d : Nat, t < U32 → d < U32 → u32sub ((t + d) % U32) t = d) := by
  refine ⟨fun h => by unfold detectGesture; rw [if_pos h], ?_, ?_⟩
  · unfold detectGesture
    split_ifs <;> simp
  · intro t d ht hd
    simp only [U32] at ht hd
    simp only [u32sub, U32]
    have h1 : t % 4294967296 = t := Nat.mod_eq_of_lt ht
    rw [h1]
    omega

theorem C5_debounce_witness :
    detectGesture 13000 0 0 100 2 0 = (2, 0) ∧
    (detectGesture 13000 0 0 600 2 0).2 = 600 ∧
    u32sub ((4294967000 + 800) % U32) 4294967000 = 800 :=
  ⟨(C5_debounce 13000 0 0 100 2 0).1 (by decide),
   (C5_debounce 13000 0 0 600 2 0).2.1 (by decide),
   (C5_debounce 0 0 0 0 0 0).2.2 4294967000 800 (by decide) (by decide)⟩



/-- Claim C1 (refuted — code bug): when `FspTimer::get_available_timer`
returns `-1`, `timerBegin` does return `false` and the periodic timer is
never started, but `setup()` discards that return value: it emits no
configuration-error report, and its output and resulting state are
byte-for-byte identical to the successful case — the system silently
proceeds, contradicting the claim that the failure is reported. -/
theorem C1_no_timer_silent :
    timerBegin (-1) = false ∧
    (setup (-1)).timerStarted = false ∧
    (setup (-1)).out = (setup 0).out ∧
    (setup (-1)).state = (setup 0).state ∧
    (setup (-1)).out =
      [OutEvent.line "\n=== BIOSIGNAL DASHBOARD ==="
      , OutEvent.line "[CH0] EMG  (Muscle)"
      , OutEvent.line "[CH1] EEG  (Brain)"
      , OutEvent.line "[CH2] EOG  (Eye)"
      , OutEvent.line "==========================="] :=
  ⟨rfl, rfl, rfl, rfl, rfl⟩

/-- Claim C6: on every sampling tick, channel `i`'s 16-bit sample is
written big-endian into the payload: the high byte (`sample / 256`) at
packet offset `3 + 2*i` and the low byte (`sample % 256`) at offset
`4 + 2*i`, for each channel index `i` in `0..2`, with no channel
skipped or reordered. -/
theorem C6_big_endian (analog : Fin NUM_CHANNELS → Nat) (now : Nat) (s : SysState)
    (i : Fin NUM_CHANNELS) :
    (timerCallback analog now s).packetBuffer
        ⟨3 + 2 * i.val, by have h : i.val < 3 := i.isLt; show 3 + 2 * i.val < 10; omega⟩
      = (analog i % 65536) / 256 ∧
    (timerCallback analog now s).packetBuffer
        ⟨4 + 2 * i.val, by have h : i.val < 3 := i.isLt; show 4 + 2 * i.val < 10; omega⟩
      = (analog i % 65536) % 256 := by
  have hm : ∀ a : Nat, a % 65536 < 65536 := fun a => Nat.mod_lt _ (by norm_num)
  rw [timerCallback_packetBuffer]
  fin_cases i
  · constructor
    · show Function.update (sampleChannels analog s.packetBuffer) 2 _ 3 = _
      rw [Function.update_noteq (by decide), sampleChannels_apply_three,
        highByte_eq _ (hm _)]
      rfl
    · show Function.update (sampleChannels analog s.packetBuffer) 2 _ 4 = _
      rw [Function.update_noteq (by decide), sampleChannels_apply_four, lowByte_eq]
      rfl
  · constructor
    · show Function.update (sampleChannels analog s.packetBuffer) 2 _ 5 = _
      rw [Function.update_noteq (by decide), sampleChannels_apply_five,
        highByte_eq _ (hm _)]
      rfl
    · show Function.update (sampleChannels analog s.packetBuffer) 2 _ 6 = _
      rw [Function.update_noteq (by decide), sampleChannels_apply_six, lowByte_eq]
      rfl
  · constructor
    · show Function.update (sampleChannels analog s.packetBuffer) 2 _ 7 = _
      rw [Function.update_noteq (by decide), sampleChannels_apply_seven,
        highByte_eq _ (hm _)]
      rfl
    · show Function.update (sampleChannels analog s.packetBuffer) 2 _ 8 = _
      rw [Function.update_noteq (by decide), sampleChannels_apply_eight, lowByte_eq]
      rfl



/-- Claim C7: `processCommand` first trims whitespace and matches
case-insensitively: `START` sets `timerStatus = true` and acknowledges,
`STOP` sets it `false` and acknowledges, `MODE` emits a line naming the
current dashboard mode, `STATUS` emits a running/stopped indicator of
`timerStatus`; any other text produces no output and no state change;
and `start`, `START` and `" START "` all have the same effect. -/
theorem C7_commands (s : SysState) (c : List Char) :
    processCommand "START".toList s =
      ({ s with timerStatus := true }, [OutEvent.line "ACQ STARTED"]) ∧
    processCommand "start".toList s = processCommand "START".toList s ∧
    processCommand " START ".toList s = processCommand "START".toList s ∧
    processCommand "STOP".toList s =
      ({ s with timerStatus := false }, [OutEvent.line "ACQ STOPPED"]) ∧
    processCommand "MODE".toList s = (s, updateDashboard s.dashboardMode) ∧
    processCommand "STATUS".toList s =
      (s, [OutEvent.line (if s.timerStatus then "RUNNING" else "STOPPED")]) ∧
    (toUpperStr (trim c) ∉
        (["START".toList, "STOP".toList, "MODE".toList, "STATUS".toList] :
          List (List Char)) →
      processCommand c s = (s, [])) := by
  refine ⟨rfl, rfl, rfl, rfl, rfl, rfl, fun h => ?_⟩
  simp only [List.mem_cons, List.mem_singleton, not_or] at h
  unfold processCommand
  rw [if_neg h.1, if_neg h.2.1, if_neg h.2.2.1, if_neg h.2.2.2.1]

theorem C7_commands_witness :
    (toUpperStr (trim "FOO".toList) ∉
      (["START".toList, "STOP".toList, "MODE".toList, "STATUS".toList] :
        List (List Char))) ∧
    processCommand "FOO".toList (setup 0).state = ((setup 0).state, []) :=
  ⟨by decide,
   (C7_commands (setup 0).state "FOO".toList).2.2.2.2.2.2 (by decide)⟩

/-- Claim C8: on a main-loop iteration, if and only if both
`timerStatus` (enabled) and `bufferReady` (pending) are true, the
transmitter writes the full fixed-length 10-byte packet to the output
stream in a single write call and clears `bufferReady`; otherwise it
writes nothing and leaves the state — pending flag and packet buffer
included — completely unchanged. -/
theorem C8_transmit (s : SysState) :
    (loopIter s none = transmitStep s) ∧
    (s.timerStatus = true → s.bufferReady = true →
      transmitStep s = ({ s with bufferReady := false },
        [OutEvent.bytes (List.ofFn s.packetBuffer)]) ∧
      (List.ofFn s.packetBuffer).length = PACKET_LEN) ∧
    (¬(s.timerStatus = true ∧ s.bufferReady = true) → transmitStep s = (s, [])) := by
  refine ⟨rfl, fun h1 h2 => ⟨?_, List.length_ofFn _⟩, fun h => ?_⟩
  · unfold transmitStep
    rw [h1, h2]
    rfl
  · unfold transmitStep
    have hb : ¬((s.timerStatus && s.bufferReady) = true) := by
      simp only [Bool.and_eq_true]
      exact h
    rw [if_neg hb]

/-- concrete enabled-and-pending state for the C8 witness -/
def readyState : SysState :=
  { packetBuffer := setupBuffer
    bufferReady := true
    timerStatus := true
    dashboardMode := 0
    lastSwitch := 0 }

theorem C8_transmit_witness :
    transmitStep readyState = ({ readyState with bufferReady := false },
      [OutEvent.bytes (List.ofFn setupBuffer)]) ∧
    transmitStep (setup 0).state = ((setup 0).state, []) :=
  ⟨((C8_transmit readyState).2.1 rfl rfl).1,
   (C8_transmit (setup 0).state).2.2 (by decide)⟩

/-- Claim C9: the per-tick behaviour of `timerCallback` is independent
of the enabled flag: two runs of a tick differing only in `timerStatus`
produce identical packet buffers (hence identical sequence bytes),
pending flags, dashboard modes and debounce timestamps; consequently
`STOP` followed by `START` restores the state with only `timerStatus`
changed, and sequence numbering and mode tracking continue unchanged. -/
theorem C9_enabled_noninterference (analog : Fin NUM_CHANNELS → Nat) (now : Nat)
    (s : SysState) (e1 e2 : Bool) :
    ((timerCallback analog now { s with timerStatus := e1 }).packetBuffer =
      (timerCallback analog now { s with timerStatus := e2 }).packetBuffer) ∧
    ((timerCallback analog now { s with timerStatus := e1 }).bufferReady =
      (timerCallback analog now { s with timerStatus := e2 }).bufferReady) ∧
    ((timerCallback analog now { s with timerStatus := e1 }).dashboardMode =
      (timerCallback analog now { s with timerStatus := e2 }).dashboardMode) ∧
    ((timerCallback analog now { s with timerStatus := e1 }).lastSwitch =
      (timerCallback analog now { s with timerStatus := e2 }).lastSwitch) ∧
    ((processCommand "START".toList ((processCommand "STOP".toList s).1)).1 =
      { s with timerStatus := true }) :=
  ⟨rfl, rfl, rfl, rfl, rfl⟩

/-- Claim C10: round-trip — on every sampling tick and for every
channel, the 16-bit value reconstructed from the channel's two payload
bytes (`(high << 8) | low`) equals the value `analogRead` returned for
that channel, so `detectGesture` is applied to exactly the freshly
sampled values, not stale or truncated ones. -/
theorem C10_roundtrip (analog : Fin NUM_CHANNELS → Nat) (now : Nat) (s : SysState)
    (hv : ∀ i, analog i < 65536) :
    ((sampleChannels analog s.packetBuffer 3 <<< 8) |||
        sampleChannels analog s.packetBuffer 4 = analog 0) ∧
    ((sampleChannels analog s.packetBuffer 5 <<< 8) |||
        sampleChannels analog s.packetBuffer 6 = analog 1) ∧
    ((sampleChannels analog s.packetBuffer 7 <<< 8) |||
        sampleChannels analog s.packetBuffer 8 = analog 2) ∧
    (timerCallback analog now s).dashboardMode =
      (detectGesture (analog 0) (analog 1) (analog 2) now
        s.dashboardMode s.lastSwitch).1 ∧
    (timerCallback analog now s).lastSwitch =
      (detectGesture (analog 0) (analog 1) (analog 2) now
        s.dashboardMode s.lastSwitch).2 := by
  have h0 : analog 0 % 65536 = analog 0 := Nat.mod_eq_of_lt (hv 0)
  have h1 : analog 1 % 65536 = analog 1 := Nat.mod_eq_of_lt (hv 1)
  have h2 : analog 2 % 65536 = analog 2 := Nat.mod_eq_of_lt (hv 2)
  refine ⟨?_, ?_, ?_, ?_, ?_⟩
  · rw [sampleChannels_apply_three, sampleChannels_apply_four, h0,
      byte_recombine _ (hv 0)]
  · rw [sampleChannels_apply_five, sampleChannels_apply_six, h1,
      byte_recombine _ (hv 1)]
  · rw [sampleChannels_apply_seven, sampleChannels_apply_eight, h2,
      byte_recombine _ (hv 2)]
  · rw [timerCallback_mode, h0, h1, h2]
  · rw [timerCallback_lastSwitch, h0, h1, h2]

theorem C10_roundtrip_witness :
    (∀ i : Fin NUM_CHANNELS,
      (fun j : Fin NUM_CHANNELS => 100 * (j.val + 1)) i < 65536) ∧
    (timerCallback (fun j : Fin NUM_CHANNELS => 100 * (j.val + 1)) 1000
        (setup 0).state).dashboardMode =
      (detectGesture 100 200 300 1000 0 0).1 :=
  ⟨by decide,
   (C10_roundtrip (fun j : Fin NUM_CHANNELS => 100 * (j.val + 1)) 1000
     (setup 0).state (by decide)).2.2.2.1⟩

end NeuroKeys
